import Mathlib

/-!
Shallow embedding of the taxonomy-enrichment and statistics scripts of the
`Oenocarpus_genome_phylo` repository (directory `analyses/NCBI_comparisons`),
together with theorems settling the specification claims about them.

The embedding translates the Python sources:
  * `02_enrich_arecaceae_taxonomy.py`   (WFO resolver and orchestrator)
  * `03_enrich_curculionidae_taxonomy.py` (Catalogue of Life resolver)
  * `03_enrich_curculionidae_taxonomy_wikidata.py` (Wikidata lineage walker)
  * `04_generate_statistics.py`         (quality classifier and aggregator)
HTTP transport, CSV file I/O, progress printing and `time.sleep` throttling
are external collaborators and are not modelled; a resolver is passed in as a
function, and a transport outcome is passed in as an `Except` value.
-/

/-! ## Python-semantics helpers -/

/-- Truthiness of an optional string, as Python evaluates `if x:` for a value
`x` that is `None` or a `str`: `None` and the empty string are falsy. -/
def pyTruthy (o : Option String) : Bool :=
  match o with
  | none => false
  | some s => s ≠ ""

/-- Boolean infix test on lists of characters (`needle` occurs contiguously
inside `hay`), mirroring Python's `needle in hay` on strings. -/
def isInfixB (needle : List Char) : List Char → Bool
  | [] => needle.isEmpty
  | c :: t => needle.isPrefixOf (c :: t) || isInfixB needle t

/-- Python's `sub in s` substring test. -/
def strContainsSub (s sub : String) : Bool :=
  isInfixB sub.toList s.toList

/-- Accumulator pass of `pySplitWs`: `acc` holds the characters of the token
currently being read, in reverse. -/
def splitWsAux : List Char → List Char → List String
  | [], acc => if acc.isEmpty then [] else [String.mk acc.reverse]
  | c :: t, acc =>
    if c.isWhitespace then
      if acc.isEmpty then splitWsAux t [] else String.mk acc.reverse :: splitWsAux t []
    else splitWsAux t (c :: acc)

/-- Python's `str.split()` with no argument: split on runs of whitespace,
discarding empty pieces.  `" a  b ".split()` is `["a", "b"]` and
`" ".split()` is `[]`. -/
def pySplitWs (s : String) : List String :=
  splitWsAux s.toList []

/-- Python's `str.strip()` on a character list: drop whitespace from both
ends. -/
def pyStripList (cs : List Char) : List Char :=
  ((cs.dropWhile Char.isWhitespace).reverse.dropWhile Char.isWhitespace).reverse

/-- Python's `str.strip()`. -/
def pyStrip (s : String) : String :=
  String.mk (pyStripList s.toList)

/-- Python's `str.lower()` (the sources only compare ASCII rank labels). -/
def pyLower (s : String) : String :=
  String.mk (s.toList.map Char.toLower)

/-- Whether a character list contains two consecutive underscores. -/
def hasDoubleUnderscore : List Char → Bool
  | '_' :: '_' :: _ => true
  | _ :: t => hasDoubleUnderscore t
  | [] => false

/-- Validity of the digit part of a Python integer literal string: nonempty,
made of decimal digits and underscores, starting and ending with a digit,
with no two consecutive underscores (Python 3.6+ `int("1_000")`). -/
def validPyDigits (cs : List Char) : Bool :=
  (match cs.head? with | some c => c.isDigit | none => false) &&
  (match cs.getLast? with | some c => c.isDigit | none => false) &&
  cs.all (fun c => c.isDigit || c = '_') &&
  !hasDoubleUnderscore cs

/-- Numeric value of a valid digit-and-underscore sequence. -/
def pyDigitsVal (cs : List Char) : Nat :=
  (cs.filter (· ≠ '_')).foldl (fun a c => a * 10 + (c.toNat - '0'.toNat)) 0

/-- Parse the digit part of a Python int string. -/
def parsePyDigits (cs : List Char) : Option Nat :=
  if validPyDigits cs then some (pyDigitsVal cs) else none

/-- Python's `int(s)` on a string: strip surrounding whitespace, allow one
leading sign, then decimal digits with optional single underscores between
digits; `none` models the `ValueError` raised on anything else. -/
def pyParseInt (s : String) : Option Int :=
  match pyStripList s.toList with
  | '+' :: rest => (parsePyDigits rest).map Int.ofNat
  | '-' :: rest => (parsePyDigits rest).map (fun n => -(n : Int))
  | rest => (parsePyDigits rest).map Int.ofNat

/-- Exceptions raised by the scripts themselves (transport exceptions are a
separate type, `TransportError`).  `configurationError` appears in the
spec's error taxonomy only; no script defines or raises it — it is included
so that claims mentioning it can be stated. -/
inductive PyError where
  | indexError
  | zeroDivisionError
  | configurationError
deriving DecidableEq, Repr

/-- Transport-level failures of an external authority call, all caught inside
the per-authority query functions (`except` clauses). -/
inductive TransportError where
  | timeout
  | connectionError
  | malformedPayload
deriving DecidableEq, Repr

/-! ## CSV records as string dictionaries

A `csv.DictReader` row is a Python dict from column names to strings; the
enrichment scripts add new keys with `dict.update`.  A record is modelled as
a partial map from keys to values. -/

/-- One CSV row / Python dict with string keys and values. -/
def RecordD : Type := String → Option String

/-- Build a record from an association list (first binding wins, as in a
Python dict literal whose keys are distinct). -/
def mkRecord (kvs : List (String × String)) : RecordD :=
  fun k => kvs.lookup k

/-- Python's `d.get(k, default)`. -/
def RecordD.getS (r : RecordD) (k : String) (d : String) : String :=
  (r k).getD d

/-- Python's `d.update(kvs)`: every key of `kvs` is (re)bound, all other
keys keep their values. -/
def updateRec (r : RecordD) (kvs : List (String × String)) : RecordD :=
  fun k => match kvs.lookup k with
    | some v => some v
    | none => r k

/-! ## WFO resolver (`02_enrich_arecaceae_taxonomy.py`, `query_wfo_taxonomy`)

The GraphQL transport is an external collaborator: the embedding receives the
already-parsed outcome of the POST as an `Except TransportError WfoResponse`
(`Except.error` covers `requests.exceptions.Timeout` and every other
exception caught by the function, including a `response.json()` that fails on
a malformed payload). -/

/-- One node of the `acceptedPlacement` block.  A field is `some s` when the
corresponding sub-object is present and truthy with `fullNameStringPlain`
extracted as `s` (an absent `fullNameStringPlain` key inside a present
sub-object yields `some ""`, matching `.get("fullNameStringPlain", "")`). -/
structure WfoPlacementRaw where
  family : Option String
  subfamily : Option String
  tribe : Option String
  subtribe : Option String
  genus : Option String
deriving DecidableEq, Repr

/-- The `taxonNameMatch` object.  `acceptedName` is `none` when the key is
absent or falsy, `some inner` otherwise, where `inner` is the optional
`fullNameStringPlain` of the accepted name.  `acceptedPlacement` is `none`
when absent (the code then uses `{}`, making every rank sub-object absent). -/
structure WfoMatch where
  acceptedName : Option (Option String)
  acceptedPlacement : Option WfoPlacementRaw
deriving DecidableEq, Repr

/-- A parsed 200-or-other response of the WFO GraphQL endpoint. -/
structure WfoResponse where
  status_code : Nat
  hasErrors : Bool
  taxonNameMatch : Option WfoMatch
deriving DecidableEq, Repr

/-- The dictionary returned by `query_wfo_taxonomy` on success. -/
structure WfoTaxonomy where
  accepted_name : String
  family : String
  subfamily : String
  tribe : String
  subtribe : String
  genus_wfo : String
deriving DecidableEq, Repr

/-- The literal dict of `query_wfo_taxonomy` lines 93-100, as key/value
pairs in source order. -/
def wfoDict (t : WfoTaxonomy) : List (String × String) :=
  [("accepted_name", t.accepted_name), ("family", t.family),
   ("subfamily", t.subfamily), ("tribe", t.tribe),
   ("subtribe", t.subtribe), ("genus_wfo", t.genus_wfo)]

/-- The keys written by the WFO enrichment (identical in the success dict of
lines 93-100 and the not-found dict of lines 136-143 / 168-175). -/
def wfoPlacementKeys : List String :=
  ["accepted_name", "family", "subfamily", "tribe", "subtribe", "genus_wfo"]

/-- The all-empty dict attached by `enrich_arecaceae_data` when the species
name is invalid or the resolver returns nothing (lines 136-143 and 168-175). -/
def wfoEmptyDict : List (String × String) :=
  wfoPlacementKeys.map (fun k => (k, ""))

/-- Extraction of one rank field: mirrors
`placement.get(rank, {}).get("fullNameStringPlain", "") if placement.get(rank) else ""`. -/
def wfoRankField (o : Option String) : String :=
  match o with
  | none => ""
  | some s => s

/-- Embedding of `query_wfo_taxonomy(genus, species)` (lines 16-109): builds
the queried scientific name, then normalizes the transport outcome.  Every
transport failure is caught and becomes `none`; so do a non-200 status, a
GraphQL `errors` key, and a missing/falsy `taxonNameMatch`. -/
def query_wfo_taxonomy (genus species : String)
    (outcome : Except TransportError WfoResponse) : Option WfoTaxonomy :=
  let scientific_name := pyStrip (genus ++ " " ++ species)
  match outcome with
  | .error _ => none
  | .ok response =>
    if response.status_code ≠ 200 then none
    else if response.hasErrors then none
    else match response.taxonNameMatch with
      | none => none
      | some m =>
        let accepted_name :=
          match m.acceptedName with
          | none => scientific_name
          | some inner => inner.getD scientific_name
        let placement := m.acceptedPlacement.getD ⟨none, none, none, none, none⟩
        some { accepted_name := accepted_name,
               family := wfoRankField placement.family,
               subfamily := wfoRankField placement.subfamily,
               tribe := wfoRankField placement.tribe,
               subtribe := wfoRankField placement.subtribe,
               genus_wfo := wfoRankField placement.genus }

/-! ## Arecaceae orchestrator (`enrich_arecaceae_data`, lines 111-199)

CSV reading/writing and progress printing are not modelled; the loop over the
parsed rows is.  The resolver argument stands for `query_wfo_taxonomy`
applied to each name's transport outcome.  The body can raise `IndexError`
(at `parts[0]`), so the loop result is an `Except`. -/

/-- One iteration of the `for` loop of `enrich_arecaceae_data`
(lines 130-181): returns the enriched record and, when the record is logged
as failed, its species name. -/
def enrich_arecaceae_step (resolve : String → String → Option WfoTaxonomy)
    (assembly : RecordD) : Except PyError (RecordD × Option String) :=
  let species_name := assembly.getS "species_name" ""
  if species_name = "" ∨ ¬ strContainsSub species_name " " then
    .ok (updateRec assembly wfoEmptyDict, some species_name)
  else
    match pySplitWs species_name with
    | [] => .error .indexError
    | genus :: rest =>
      let species := match rest with
        | s :: _ => s
        | [] => ""
      match resolve genus species with
      | some taxonomy => .ok (updateRec assembly (wfoDict taxonomy), none)
      | none => .ok (updateRec assembly wfoEmptyDict, some species_name)

/-- The whole loop of `enrich_arecaceae_data`: the `enriched` and `failed`
accumulators in input order; an uncaught exception aborts the batch. -/
def enrich_arecaceae_data (resolve : String → String → Option WfoTaxonomy) :
    List RecordD → Except PyError (List RecordD × List String)
  | [] => .ok ([], [])
  | assembly :: rest =>
    match enrich_arecaceae_step resolve assembly with
    | .error e => .error e
    | .ok (r, f) =>
      match enrich_arecaceae_data resolve rest with
      | .error e => .error e
      | .ok (enriched, failed) => .ok (r :: enriched, f.toList ++ failed)

/-! ## Catalogue of Life resolver (`03_enrich_curculionidae_taxonomy.py`)

Only the shape of the dictionary returned by `query_col_taxonomy`
(lines 81-88) is needed by the claims: its keys are what the COL enrichment
writes into a record. -/

/-- The dictionary returned by `query_col_taxonomy` on success. -/
structure ColTaxonomy where
  accepted_name : String
  family_col : String
  subfamily_col : String
  tribe_col : String
  genus_col : String
  status : String
deriving DecidableEq, Repr

/-- The literal dict of `query_col_taxonomy` lines 81-88, in source order. -/
def colDict (t : ColTaxonomy) : List (String × String) :=
  [("accepted_name", t.accepted_name), ("family_col", t.family_col),
   ("subfamily_col", t.subfamily_col), ("tribe_col", t.tribe_col),
   ("genus_col", t.genus_col), ("status", t.status)]

/-- The keys written by the COL enrichment (same set in the success dict of
lines 81-88 and the not-found dict of lines 124-131 / 154-161). -/
def colPlacementKeys : List String :=
  ["accepted_name", "family_col", "subfamily_col", "tribe_col", "genus_col",
   "status"]

/-! ## Wikidata lineage walker (`03_enrich_curculionidae_taxonomy_wikidata.py`)

`get_entity_info` is the external lookup collaborator: for an entity id it
returns `(label, rank_id, parent_id)`, each possibly `None` (and all `None`
on a caught transport error).  `search_wikidata_taxon` is the search
collaborator returning an entity id or `None`. -/

/-- Result triple of `get_entity_info`. -/
structure EntityInfo where
  label : Option String
  rank_id : Option String
  parent_id : Option String
deriving DecidableEq, Repr

/-- One element of the lineage list built by `get_taxon_lineage`
(lines 131-135). -/
structure LineageNode where
  id : String
  name : String
  rank : String
deriving DecidableEq, Repr

/-- The body of `get_taxon_lineage`'s `for i in range(max_depth)` loop
(lines 119-145), with the remaining iteration budget as fuel.  Each
iteration looks the current entity up; a falsy label stops the walk; the
rank id, when truthy, is resolved to a rank name by one more lookup; the
node is appended; a rank name equal to `"family"` or a falsy parent id stops
the walk, otherwise the walk moves to the parent. -/
def lineageLoop (lookup : String → EntityInfo) : Nat → String → List LineageNode
  | 0, _ => []
  | d + 1, current_id =>
    let info := lookup current_id
    if pyTruthy info.label then
      let label := info.label.getD ""
      let rank_name :=
        if pyTruthy info.rank_id then
          let rank_label := (lookup (info.rank_id.getD "")).label
          if pyTruthy rank_label then rank_label.getD "" else ""
        else ""
      let node : LineageNode := ⟨current_id, label, rank_name⟩
      if rank_name = "family" then [node]
      else if pyTruthy info.parent_id then
        node :: lineageLoop lookup d (info.parent_id.getD "")
      else [node]
    else []

/-- Embedding of `get_taxon_lineage(entity_id, max_depth=20)`
(lines 105-147). -/
def get_taxon_lineage (lookup : String → EntityInfo) (entity_id : String)
    (max_depth : Nat := 20) : List LineageNode :=
  lineageLoop lookup max_depth entity_id

/-- The dict initialised and mutated by `extract_taxonomy_from_lineage`. -/
structure ExtractedTaxonomy where
  family : String
  subfamily : String
  genus : String
deriving DecidableEq, Repr

/-- Embedding of `extract_taxonomy_from_lineage(lineage)` (lines 149-176):
a single pass that overwrites the `family`/`subfamily`/`genus` entries each
time a node of that (lower-cased) rank is seen, so the last node of a given
rank wins.  No other rank is extracted. -/
def extract_taxonomy_from_lineage (lineage : List LineageNode) : ExtractedTaxonomy :=
  lineage.foldl
    (fun taxonomy taxon =>
      let rank := pyLower taxon.rank
      let name := taxon.name
      if rank = "family" then { taxonomy with family := name }
      else if rank = "subfamily" then { taxonomy with subfamily := name }
      else if rank = "genus" then { taxonomy with genus := name }
      else taxonomy)
    ⟨"", "", ""⟩

/-- The dictionary assembled by `query_wikidata_taxonomy` plus the
`genus_wikidata` key added by `enrich_curculionidae_data` (line 265). -/
structure WikiTaxonomy where
  family : String
  subfamily : String
  genus : String
  accepted_name : String
  wikidata_id : String
deriving DecidableEq, Repr

/-- Embedding of `query_wikidata_taxonomy(genus, species)` (lines 178-211):
search, walk the lineage with the default depth of 20, and reduce.  A falsy
search result or an empty lineage yields `none`; otherwise `accepted_name`
is the name of the first (leaf) lineage node. -/
def query_wikidata_taxonomy (search : String → Option String)
    (lookup : String → EntityInfo) (genus species : String) : Option WikiTaxonomy :=
  let scientific_name := pyStrip (genus ++ " " ++ species)
  let entity_id := search scientific_name
  if pyTruthy entity_id then
    let eid := entity_id.getD ""
    match get_taxon_lineage lookup eid with
    | [] => none
    | first :: rest =>
      let taxonomy := extract_taxonomy_from_lineage (first :: rest)
      some { family := taxonomy.family, subfamily := taxonomy.subfamily,
             genus := taxonomy.genus, accepted_name := first.name,
             wikidata_id := eid }
  else none

/-- The update dict of the success branch of `enrich_curculionidae_data`
(taxonomy dict of lines 159-209 plus `genus_wikidata` added at line 265),
in source key order. -/
def wikiDict (t : WikiTaxonomy) : List (String × String) :=
  [("family", t.family), ("subfamily", t.subfamily), ("genus", t.genus),
   ("accepted_name", t.accepted_name), ("wikidata_id", t.wikidata_id),
   ("genus_wikidata", t.genus)]

/-- All keys the Wikidata enrichment can write. -/
def wikiPlacementKeys : List String :=
  ["family", "subfamily", "genus", "accepted_name", "wikidata_id",
   "genus_wikidata"]

/-- The all-empty dict attached by `enrich_curculionidae_data` when the
species name is invalid or the resolver returns nothing (lines 238-244 and
270-276). -/
def wikiEmptyDict : List (String × String) :=
  [("accepted_name", ""), ("family", ""), ("subfamily", ""),
   ("genus_wikidata", ""), ("wikidata_id", "")]

/-- One iteration of the `for` loop of `enrich_curculionidae_data`
(lines 232-279), analogous to `enrich_arecaceae_step`. -/
def enrich_curculionidae_step (resolve : String → String → Option WikiTaxonomy)
    (assembly : RecordD) : Except PyError (RecordD × Option String) :=
  let species_name := assembly.getS "species_name" ""
  if species_name = "" ∨ ¬ strContainsSub species_name " " then
    .ok (updateRec assembly wikiEmptyDict, some species_name)
  else
    match pySplitWs species_name with
    | [] => .error .indexError
    | genus :: rest =>
      let species := match rest with
        | s :: _ => s
        | [] => ""
      match resolve genus species with
      | some taxonomy => .ok (updateRec assembly (wikiDict taxonomy), none)
      | none => .ok (updateRec assembly wikiEmptyDict, some species_name)

/-- The whole loop of `enrich_curculionidae_data` (Wikidata variant). -/
def enrich_curculionidae_data (resolve : String → String → Option WikiTaxonomy) :
    List RecordD → Except PyError (List RecordD × List String)
  | [] => .ok ([], [])
  | assembly :: rest =>
    match enrich_curculionidae_step resolve assembly with
    | .error e => .error e
    | .ok (r, f) =>
      match enrich_curculionidae_data resolve rest with
      | .error e => .error e
      | .ok (enriched, failed) => .ok (r :: enriched, f.toList ++ failed)

/-! ## Statistics (`04_generate_statistics.py`)

The aggregation functions read enriched CSV rows.  A row always carries the
`species_name` column (the scripts write it), accessed with `a["..."]`;
optional taxonomy columns are accessed with `a.get(...)` and are modelled as
`Option String`. -/

/-- One enriched CSV row as read by `analyze_arecaceae` / `is_high_quality`.
`assembly_level` is accessed as `a.get("assembly_level", "")`, so an absent
column and an empty value coincide and a plain `String` field suffices. -/
structure StatRecord where
  species_name : String
  assembly_level : String
  scaffold_n50 : Option String
  subfamily : Option String
  tribe : Option String
  subtribe : Option String
deriving DecidableEq, Repr

/-- Embedding of `is_high_quality(assembly)` (lines 26-53): chromosome-level
or complete-genome assemblies qualify, otherwise a truthy `scaffold_n50`
that parses as an int above 10,000,000 does; a `ValueError` from `int()` is
swallowed (`except ... pass`) and the function returns `False`. -/
def is_high_quality (assembly : StatRecord) : Bool :=
  if strContainsSub (pyLower assembly.assembly_level) "chromosome"
      || pyLower assembly.assembly_level = "complete genome" then
    true
  else
    match assembly.scaffold_n50 with
    | none => false
    | some s =>
      if s = "" then false
      else
        match pyParseInt s with
        | some n50_value => n50_value > 10000000
        | none => false

/-- The set comprehension `set(a["species_name"] for a in as if a["species_name"])`. -/
def species_set (assemblies : List StatRecord) : Finset String :=
  ((assemblies.map StatRecord.species_name).filter (· ≠ "")).toFinset

/-- The set comprehension over a truthy optional column, e.g.
`set(a["subfamily"] for a in hq if a.get("subfamily"))`. -/
def opt_field_set (f : StatRecord → Option String) (assemblies : List StatRecord) :
    Finset String :=
  ((assemblies.filter (fun a => pyTruthy (f a))).map (fun a => (f a).getD "")).toFinset

/-- The genus-collecting loops of `analyze_arecaceae` (lines 77-84 and
94-98): for each record whose `species_name` is truthy and contains a space,
take `species_name.split()[0]`; `split()` of a whitespace-only name is empty
and the indexing raises `IndexError`. -/
def genus_tokens : List StatRecord → Except PyError (List (StatRecord × String))
  | [] => .ok []
  | a :: rest =>
    if a.species_name ≠ "" ∧ strContainsSub a.species_name " " then
      match pySplitWs a.species_name with
      | [] => .error .indexError
      | genus :: _ =>
        match genus_tokens rest with
        | .error e => .error e
        | .ok l => .ok ((a, genus) :: l)
    else genus_tokens rest

/-- Numeric fields of the dict returned by `analyze_arecaceae` (the
`*_list` entries, which are sorted copies of the same sets, are omitted). -/
structure ArecStats where
  total_assemblies : Nat
  hq_assemblies : Nat
  all_species : Nat
  hq_species : Nat
  all_genera : Nat
  hq_genera : Nat
  subfamilies : Nat
  tribes : Nat
  subtribes : Nat
  cocoseae_subtribes : Nat
  cocoseae_genera : Nat
deriving DecidableEq, Repr

/-- Embedding of `analyze_arecaceae` (lines 55-116) on the parsed rows.  The
two genus loops are the only failure points; all other steps are pure set
and filter constructions (reordering pure `let`-bindings around the failure
points preserves the Python evaluation's observable outcome, because the
first failing record in `assemblies` also precedes any failing record of the
sub-list `cocoseae`). -/
def analyze_arecaceae (assemblies : List StatRecord) : Except PyError ArecStats :=
  let hq_assemblies := assemblies.filter is_high_quality
  let cocoseae_assemblies := hq_assemblies.filter (fun a => a.tribe = some "Cocoseae")
  match genus_tokens assemblies with
  | .error e => .error e
  | .ok toks =>
    match genus_tokens cocoseae_assemblies with
    | .error e => .error e
    | .ok cocoseae_toks =>
      .ok { total_assemblies := assemblies.length,
            hq_assemblies := hq_assemblies.length,
            all_species := (species_set assemblies).card,
            hq_species := (species_set hq_assemblies).card,
            all_genera := (toks.map Prod.snd).toFinset.card,
            hq_genera :=
              ((toks.filter (fun p => is_high_quality p.1)).map Prod.snd).toFinset.card,
            subfamilies := (opt_field_set StatRecord.subfamily hq_assemblies).card,
            tribes := (opt_field_set StatRecord.tribe hq_assemblies).card,
            subtribes := (opt_field_set StatRecord.subtribe hq_assemblies).card,
            cocoseae_subtribes :=
              (opt_field_set StatRecord.subtribe cocoseae_assemblies).card,
            cocoseae_genera := (cocoseae_toks.map Prod.snd).toFinset.card }

/-- Numeric fields of the dict returned by `analyze_curculionidae`. -/
structure CurcStats where
  total_assemblies : Nat
  hq_assemblies : Nat
  all_species : Nat
  hq_species : Nat
  all_genera : Nat
  hq_genera : Nat
  subfamilies : Nat
deriving DecidableEq, Repr

/-- The `DIVERSITY_ESTIMATES["Arecaceae"]` entry (lines 12-18). -/
structure ArecDiversity where
  total_species : Nat
  total_genera : Nat
  total_subfamilies : Nat
  total_tribes_cocoseae : Nat
  total_subtribes_cocoseae : Nat
deriving DecidableEq, Repr

/-- The `DIVERSITY_ESTIMATES["Curculionidae"]` entry (lines 19-23). -/
structure CurcDiversity where
  total_species : Nat
  total_genera : Nat
  total_subfamilies : Nat
deriving DecidableEq, Repr

/-- The hard-coded Arecaceae baselines. -/
def arecDiversityEstimate : ArecDiversity := ⟨2600, 181, 5, 15, 4⟩

/-- The hard-coded Curculionidae baselines. -/
def curcDiversityEstimate : CurcDiversity := ⟨51000, 4600, 8⟩

/-- Python division of two numbers: raises `ZeroDivisionError` on a zero
denominator.  The values are modelled over `ℚ` (the claims concern the
error behaviour of the computation, not float rounding). -/
def pyDiv (a b : ℚ) : Except PyError ℚ :=
  if b = 0 then .error .zeroDivisionError else .ok (a / b)

/-- The seven percentage values computed by `generate_summary_paragraph`. -/
structure SummaryPercentages where
  arec_species_pct : ℚ
  arec_genera_pct : ℚ
  arec_subfamily_pct : ℚ
  arec_cocoseae_subtribe_pct : ℚ
  curc_species_pct : ℚ
  curc_genera_pct : ℚ
  curc_subfamily_pct : ℚ
deriving DecidableEq, Repr

/-- The `# Calculate percentages` block of `generate_summary_paragraph`
(lines 174-185), with the two `DIVERSITY_ESTIMATES` entries it reads as
explicit arguments; the divisions are evaluated in source order and any
`ZeroDivisionError` propagates (nothing in the script catches it). -/
def summary_percentages (arec_stats : ArecStats) (curc_stats : CurcStats)
    (arec_div : ArecDiversity) (curc_div : CurcDiversity) :
    Except PyError SummaryPercentages := do
  let arec_species_pct ← pyDiv arec_stats.hq_species arec_div.total_species
  let arec_genera_pct ← pyDiv arec_stats.hq_genera arec_div.total_genera
  let arec_subfamily_pct ← pyDiv arec_stats.subfamilies arec_div.total_subfamilies
  let arec_cocoseae_subtribe_pct ←
    pyDiv arec_stats.cocoseae_subtribes arec_div.total_subtribes_cocoseae
  let curc_species_pct ← pyDiv curc_stats.hq_species curc_div.total_species
  let curc_genera_pct ← pyDiv curc_stats.hq_genera curc_div.total_genera
  let curc_subfamily_pct ← pyDiv curc_stats.subfamilies curc_div.total_subfamilies
  pure ⟨arec_species_pct * 100, arec_genera_pct * 100, arec_subfamily_pct * 100,
        arec_cocoseae_subtribe_pct * 100, curc_species_pct * 100,
        curc_genera_pct * 100, curc_subfamily_pct * 100⟩

/-- The percentage computations of `generate_summary_paragraph` with the
baselines the script actually passes (the module constant
`DIVERSITY_ESTIMATES`); the surrounding f-string assembly is pure text
formatting and is not modelled. -/
def generate_summary_paragraph_percentages (arec_stats : ArecStats)
    (curc_stats : CurcStats) : Except PyError SummaryPercentages :=
  summary_percentages arec_stats curc_stats arecDiversityEstimate curcDiversityEstimate

/-! ## Derived notions used to state the claims -/

/-- Name of the first lineage node at a given (lower-cased) rank, or empty.
This follows the spec's words for the lineage reduction ("scanning for the
first node at each of the recognized ranks") and is used to compare the
spec's rule with what `extract_taxonomy_from_lineage` computes. -/
def firstNameAtRank (rk : String) (lineage : List LineageNode) : String :=
  match (lineage.filter (fun n => pyLower n.rank = rk)).head? with
  | some n => n.name
  | none => ""

/-- Name of the last lineage node at a given (lower-cased) rank, or empty:
the rule `extract_taxonomy_from_lineage` actually implements. -/
def lastNameAtRank (rk : String) (lineage : List LineageNode) : String :=
  match (lineage.filter (fun n => pyLower n.rank = rk)).getLast? with
  | some n => n.name
  | none => ""

/-! ## Concrete inputs used by counterexamples and witnesses -/

/-- A well-formed input row for the Arecaceae enrichment. -/
def rowMapora : RecordD :=
  mkRecord [("accession", "GCA_000001"), ("organism", "Oenocarpus mapora"),
            ("species_name", "Oenocarpus mapora")]

/-- An input row whose `species_name` is a single space: it passes the
invalid-name guard (it is nonempty and contains `" "`) but `split()` on it
is empty. -/
def rowSpaceName : RecordD :=
  mkRecord [("accession", "GCA_000002"), ("species_name", " ")]

/-- A second well-formed input row. -/
def rowEuterpe : RecordD :=
  mkRecord [("accession", "GCA_000003"), ("species_name", "Euterpe oleracea")]

/-- A WFO placement with every field populated. -/
def wfoTaxAlpha : WfoTaxonomy :=
  ⟨"Alpha palm", "Arecaceae", "Arecoideae", "Cocoseae", "Attaleinae", "Attalea"⟩

/-- A COL placement whose accepted name differs from `wfoTaxAlpha`'s. -/
def colTaxBeta : ColTaxonomy :=
  ⟨"Beta weevil", "Curculionidae", "Baridinae", "", "Anchylorhynchus", "accepted"⟩

/-- A two-node lineage with two genus-ranked nodes of different names. -/
def lineageTwoGenera : List LineageNode :=
  [⟨"Q1", "GenA", "genus"⟩, ⟨"Q2", "GenB", "genus"⟩]

/-- A concrete Wikidata search collaborator. -/
def demoSearch : String → Option String :=
  fun s => if s = "Anchylorhynchus bicarinatus" then some "Q10" else none

/-- A concrete Wikidata lookup collaborator: a three-step parent chain from
species to family, plus the rank entities. -/
def demoLookup : String → EntityInfo := fun i =>
  if i = "Q10" then ⟨some "Anchylorhynchus bicarinatus", some "R1", some "Q11"⟩
  else if i = "Q11" then ⟨some "Anchylorhynchus", some "R2", some "Q12"⟩
  else if i = "Q12" then ⟨some "Curculionidae", some "R3", some "Q13"⟩
  else if i = "R1" then ⟨some "species", none, none⟩
  else if i = "R2" then ⟨some "genus", none, none⟩
  else if i = "R3" then ⟨some "family", none, none⟩
  else ⟨none, none, none⟩

/-- A statistics row for a chromosome-level Oenocarpus mapora assembly. -/
def statRowA : StatRecord :=
  ⟨"Oenocarpus mapora", "Chromosome", some "15000000", none, none, none⟩

/-- A second assembly of the same species at a different quality. -/
def statRowB : StatRecord :=
  ⟨"Oenocarpus mapora", "Scaffold", some "500000", none, none, none⟩

/-- Concrete Arecaceae statistics used to exercise the percentage block. -/
def demoArecStats : ArecStats := ⟨4, 2, 3, 2, 3, 2, 1, 1, 1, 1, 1⟩

/-- Concrete Curculionidae statistics used to exercise the percentage
block. -/
def demoCurcStats : CurcStats := ⟨5, 2, 4, 2, 4, 2, 1⟩

/-- An Arecaceae diversity table whose species baseline is zero. -/
def zeroSpeciesDiversity : ArecDiversity := ⟨0, 181, 5, 15, 4⟩

/-! ## Basic evaluation checks of the Python-semantics helpers -/

theorem pySplitWs_checks : pySplitWs " " = [] ∧ pySplitWs "Oenocarpus mapora" = ["Oenocarpus", "mapora"] := by
  constructor <;> decide

theorem pyParseInt_checks : pyParseInt "15000000" = some 15000000 ∧ pyParseInt "" = none ∧ pyParseInt " 1_000 " = some 1000 ∧ pyParseInt "abc" = none := by
  refine ⟨by decide, by decide, by decide, by decide⟩

theorem pyStringHelper_checks : pyLower "Chromosome" = "chromosome" ∧ strContainsSub "chromosome level" "chromosome" = true ∧ strContainsSub "scaffold" "chromosome" = false := by
  refine ⟨by decide, by decide, by decide⟩

/-! ## Helper lemmas -/

theorem isInfixB_iff (needle hay : List Char) : isInfixB needle hay = true ↔ needle <:+: hay := by
  induction hay with
  | nil =>
    simp [isInfixB, List.isEmpty_iff, List.infix_nil]
  | cons c t ih =>
    simp [isInfixB, List.isPrefixOf_iff_prefix, ih, List.infix_cons_iff]

theorem strContainsSub_iff (s sub : String) :
    strContainsSub s sub = true ↔ sub.toList <:+: s.toList := by
  rw [strContainsSub, isInfixB_iff]

theorem lookup_eq_none_of_not_mem_keys (kvs : List (String × String)) (k : String)
    (h : k ∉ kvs.map Prod.fst) : kvs.lookup k = none := by
  induction kvs with
  | nil => rfl
  | cons p t ih =>
    simp only [List.map_cons, List.mem_cons, not_or] at h
    obtain ⟨h1, h2⟩ := h
    simpa [List.lookup, beq_eq_false_iff_ne.mpr h1] using ih h2

theorem updateRec_not_mem_keys (r : RecordD) (kvs : List (String × String)) (k : String)
    (h : k ∉ kvs.map Prod.fst) : updateRec r kvs k = r k := by
  simp [updateRec, lookup_eq_none_of_not_mem_keys _ _ h]

theorem wfoDict_keys (t : WfoTaxonomy) : (wfoDict t).map Prod.fst = wfoPlacementKeys := rfl

theorem colDict_keys (t : ColTaxonomy) : (colDict t).map Prod.fst = colPlacementKeys := rfl

theorem wikiDict_keys (t : WikiTaxonomy) : (wikiDict t).map Prod.fst = wikiPlacementKeys := rfl

theorem wfoEmptyDict_keys : wfoEmptyDict.map Prod.fst = wfoPlacementKeys := rfl

theorem wikiEmptyDict_keys_sub :
    ∀ k ∈ wikiEmptyDict.map Prod.fst, k ∈ wikiPlacementKeys := by decide

/-! ## Claim C3: the quality classifier -/

/-- C3: for every record, with any string values of `assembly_level` and
`scaffold_n50` (including empty and non-numeric ones), `is_high_quality`
returns `true` exactly when the lower-cased `assembly_level` contains
`"chromosome"` or equals `"complete genome"`, or `scaffold_n50` parses as an
integer strictly greater than 10,000,000.  The function is total (it returns
`Bool`, never an exception): a missing or non-numeric `scaffold_n50` simply
fails the N50 test. -/
theorem c3_is_high_quality_iff (a : StatRecord) :
    is_high_quality a = true ↔
      ("chromosome".toList <:+: (pyLower a.assembly_level).toList
        ∨ pyLower a.assembly_level = "complete genome"
        ∨ ∃ n : Int, a.scaffold_n50.bind pyParseInt = some n ∧ 10000000 < n) := by
  unfold is_high_quality
  by_cases hc : strContainsSub (pyLower a.assembly_level) "chromosome" = true
  · rw [hc]
    exact iff_of_true (by rfl) (Or.inl ((strContainsSub_iff _ _).mp hc))
  · by_cases he : pyLower a.assembly_level = "complete genome"
    · have : decide (pyLower a.assembly_level = "complete genome") = true := by
        exact decide_eq_true he
      rw [this, Bool.or_true]
      exact iff_of_true (by rfl) (Or.inr (Or.inl he))
    · have hcond : (strContainsSub (pyLower a.assembly_level) "chromosome"
          || decide (pyLower a.assembly_level = "complete genome")) = false := by
        rw [Bool.or_eq_false_iff]
        exact ⟨by simpa using hc, decide_eq_false he⟩
      rw [if_neg (by rw [hcond]; exact Bool.false_ne_true)]
      have hnotInf : ¬ "chromosome".toList <:+: (pyLower a.assembly_level).toList :=
        fun hin => hc ((strContainsSub_iff _ _).mpr hin)
      have notFirstTwo : ∀ P : Prop, ¬ P →
          (("chromosome".toList <:+: (pyLower a.assembly_level).toList
            ∨ pyLower a.assembly_level = "complete genome" ∨ P) → False) := by
        rintro P hP (h | h | h)
        · exact hnotInf h
        · exact he h
        · exact hP h
      cases hn : a.scaffold_n50 with
      | none =>
        dsimp only
        refine iff_of_false Bool.false_ne_true (notFirstTwo _ ?_)
        rintro ⟨n, hm, -⟩
        exact Option.noConfusion (Option.none_bind pyParseInt ▸ hm)
      | some s =>
        dsimp only
        by_cases hs : s = ""
        · rw [if_pos hs]
          refine iff_of_false Bool.false_ne_true (notFirstTwo _ ?_)
          rintro ⟨n, hm, -⟩
          rw [Option.some_bind, hs, show pyParseInt "" = none from by decide] at hm
          exact Option.noConfusion hm
        · rw [if_neg hs]
          cases hp : pyParseInt s with
          | none =>
            refine iff_of_false Bool.false_ne_true (notFirstTwo _ ?_)
            rintro ⟨n, hm, -⟩
            rw [Option.some_bind, hp] at hm
            exact Option.noConfusion hm
          | some n =>
            constructor
            · intro h
              refine Or.inr (Or.inr ⟨n, by rw [Option.some_bind, hp], ?_⟩)
              exact of_decide_eq_true h
            · intro h
              rcases h with h | h | ⟨m, hm, hlt⟩
              · exact absurd h hnotInf
              · exact absurd h he
              · rw [Option.some_bind, hp] at hm
                obtain rfl : n = m := Option.some_injective _ hm
                exact decide_eq_true hlt

/-! ## Claim C5: the lineage walk is depth-bounded -/

theorem lineageLoop_length_le (lookup : String → EntityInfo) :
    ∀ (d : Nat) (cur : String), (lineageLoop lookup d cur).length ≤ d := by
  intro d
  induction d with
  | zero => intro cur; simp [lineageLoop]
  | succ d ih =>
    intro cur
    rw [lineageLoop]
    by_cases hl : pyTruthy (lookup cur).label = true
    · rw [if_pos hl]
      by_cases hf : (if pyTruthy (lookup cur).rank_id = true then
          if pyTruthy (lookup ((lookup cur).rank_id.getD "")).label = true then
            (lookup ((lookup cur).rank_id.getD "")).label.getD "" else ""
        else "") = "family"
      · rw [if_pos hf]
        simp
      · rw [if_neg hf]
        by_cases hp : pyTruthy (lookup cur).parent_id = true
        · rw [if_pos hp]
          simpa using ih _
        · rw [if_neg hp]
          simp
    · rw [if_neg hl]
      simp

/-- C5: for every starting entity and every behaviour of the lookup
collaborator (cycles in the parent pointers and unbounded chains included),
`get_taxon_lineage` performs at most `max_depth` iterations — each iteration
appends exactly one node, so the lineage never holds more than `max_depth`
nodes (20 under the default argument), and termination rests on the depth
bound alone (the walker keeps no cycle-detection set). -/
theorem c5_lineage_depth_bound :
    (∀ (lookup : String → EntityInfo) (entity_id : String),
      (get_taxon_lineage lookup entity_id).length ≤ 20)
    ∧ ∀ (lookup : String → EntityInfo) (entity_id : String) (max_depth : Nat),
      (get_taxon_lineage lookup entity_id max_depth).length ≤ max_depth := by
  constructor
  · intro lookup eid
    exact lineageLoop_length_le lookup 20 eid
  · intro lookup eid d
    exact lineageLoop_length_le lookup d eid

/-! ## Claim C2: batch totality of the enrichment loop -/

/-- C2 (failing-input evaluation): the claim promises that enrichment yields
one output per input and that the batch never aborts, but a record whose
`species_name` is a single space passes the invalid-name guard (the name is
nonempty and contains `" "`), then `species_name.split()` is empty and
`parts[0]` raises an uncaught `IndexError`, aborting the whole batch with no
output — while the code's own invalid-name branch shows that such names were
meant to be skipped and logged, not fatal. -/
theorem c2_space_name_aborts_batch :
    enrich_arecaceae_data (fun _ _ => none) [rowSpaceName] = .error .indexError
    ∧ enrich_arecaceae_data (fun _ _ => none) [rowMapora, rowSpaceName, rowEuterpe]
        = .error .indexError := by
  constructor <;> rfl

/-! ## Claim C6: zero diversity baseline -/

/-- C6 (counterexample): with a zero species baseline the percentage block
fails with the ordinary uncaught `ZeroDivisionError` of Python's `/`
operator — not with a `ConfigurationError`, which nothing in the code
defines or raises. -/
theorem c6_counterexample :
    summary_percentages demoArecStats demoCurcStats zeroSpeciesDiversity curcDiversityEstimate
        = .error .zeroDivisionError
    ∧ (Except.error .zeroDivisionError :
        Except PyError SummaryPercentages) ≠ .error .configurationError := by
  constructor
  · rfl
  · intro h
    exact PyError.noConfusion (Except.error.inj h)

/-- C6 (amended): passing a diversity table with a zero `total_species`
baseline to the percentage computation makes it raise an uncaught
`ZeroDivisionError` — the batch aborts loudly rather than silently returning
0% or infinity, but the error is the plain divide-by-zero, and no
`ConfigurationError` exists anywhere in the code. -/
theorem c6_amended_zero_baseline_divides (arec_stats : ArecStats)
    (curc_stats : CurcStats) (arec_div : ArecDiversity) (curc_div : CurcDiversity)
    (h : arec_div.total_species = 0) :
    summary_percentages arec_stats curc_stats arec_div curc_div
      = .error .zeroDivisionError := by
  have hz : ((arec_div.total_species : ℚ)) = 0 := by
    rw [h]; norm_num
  simp [summary_percentages, pyDiv, hz, Bind.bind, Except.bind]

/-- C6 (witness): the amended statement applied to concrete statistics and a
concrete zeroed baseline table. -/
theorem c6_witness :
    summary_percentages demoArecStats demoCurcStats ⟨0, 200, 6, 10, 3⟩ curcDiversityEstimate
      = .error .zeroDivisionError :=
  c6_amended_zero_baseline_divides demoArecStats demoCurcStats ⟨0, 200, 6, 10, 3⟩
    curcDiversityEstimate rfl

/-! ## Claim C1: the not-found placement -/

/-- C1 (counterexample): when the resolver returns nothing for the queried
name `"Oenocarpus mapora"`, the placement attached to the record does have
every rank field empty, but its `accepted_name` is the empty string, not the
originally queried name. -/
theorem c1_counterexample :
    enrich_arecaceae_step (fun _ _ => none) rowMapora
        = .ok (updateRec rowMapora wfoEmptyDict, some "Oenocarpus mapora")
    ∧ updateRec rowMapora wfoEmptyDict "accepted_name" = some ""
    ∧ updateRec rowMapora wfoEmptyDict "accepted_name" ≠ some "Oenocarpus mapora" := by
  refine ⟨rfl, rfl, by decide⟩

/-- C1 (amended): when the authority signals no match (the resolver returns
nothing) on a record whose species name passed the binomial guard, both
orchestrators attach the all-empty placement and log the name as failed:
every placement field, `accepted_name` included, is set to the empty string
— `accepted_name` is NOT set to the originally queried name. -/
theorem c1_amended_not_found_all_empty :
    (∀ (resolve : String → String → Option WfoTaxonomy) (r : RecordD)
        (g : String) (rest : List String),
      r.getS "species_name" "" ≠ "" →
      strContainsSub (r.getS "species_name" "") " " = true →
      pySplitWs (r.getS "species_name" "") = g :: rest →
      resolve g (rest.headD "") = none →
      enrich_arecaceae_step resolve r
          = .ok (updateRec r wfoEmptyDict, some (r.getS "species_name" ""))
        ∧ ∀ k ∈ wfoPlacementKeys, updateRec r wfoEmptyDict k = some "")
    ∧ ∀ (resolve : String → String → Option WikiTaxonomy) (r : RecordD)
        (g : String) (rest : List String),
      r.getS "species_name" "" ≠ "" →
      strContainsSub (r.getS "species_name" "") " " = true →
      pySplitWs (r.getS "species_name" "") = g :: rest →
      resolve g (rest.headD "") = none →
      enrich_curculionidae_step resolve r
          = .ok (updateRec r wikiEmptyDict, some (r.getS "species_name" ""))
        ∧ ∀ k ∈ wikiEmptyDict.map Prod.fst, updateRec r wikiEmptyDict k = some "" := by
  constructor
  · intro resolve r g rest hne hsp hsplit hres
    constructor
    · rw [enrich_arecaceae_step, if_neg (by simp [hne, hsp]), hsplit]
      cases rest with
      | nil =>
        simp only [List.headD] at hres
        dsimp only
        rw [hres]
      | cons s t =>
        simp only [List.headD] at hres
        dsimp only
        rw [hres]
    · intro k hk
      fin_cases hk <;> rfl
  · intro resolve r g rest hne hsp hsplit hres
    constructor
    · rw [enrich_curculionidae_step, if_neg (by simp [hne, hsp]), hsplit]
      cases rest with
      | nil =>
        simp only [List.headD] at hres
        dsimp only
        rw [hres]
      | cons s t =>
        simp only [List.headD] at hres
        dsimp only
        rw [hres]
    · intro k hk
      fin_cases hk <;> rfl

/-- C1 (witness): the amended statement applied to the concrete record
`rowEuterpe` and the always-failing resolver. -/
theorem c1_witness :
    (enrich_arecaceae_step (fun _ _ => none) rowEuterpe
        = .ok (updateRec rowEuterpe wfoEmptyDict, some (rowEuterpe.getS "species_name" ""))
      ∧ ∀ k ∈ wfoPlacementKeys, updateRec rowEuterpe wfoEmptyDict k = some "")
    ∧ enrich_curculionidae_step (fun _ _ => none) rowEuterpe
        = .ok (updateRec rowEuterpe wikiEmptyDict, some (rowEuterpe.getS "species_name" "")) := by
  constructor
  · exact c1_amended_not_found_all_empty.1 (fun _ _ => none) rowEuterpe
      "Euterpe" ["oleracea"] (by decide) (by decide) (by decide) rfl
  · exact (c1_amended_not_found_all_empty.2 (fun _ _ => none) rowEuterpe
      "Euterpe" ["oleracea"] (by decide) (by decide) (by decide) rfl).1

/-! ## Claim C8: key sets of the two authorities -/

/-- C8 (counterexample): the WFO and COL placement dicts are not disjoint —
both contain the key `"accepted_name"`, so attaching a COL placement to a
record already carrying a WFO placement overwrites the WFO `accepted_name`
(here `"Alpha palm"` becomes `"Beta weevil"`). -/
theorem c8_counterexample :
    "accepted_name" ∈ wfoPlacementKeys
    ∧ "accepted_name" ∈ colPlacementKeys
    ∧ updateRec rowMapora (wfoDict wfoTaxAlpha) "accepted_name" = some "Alpha palm"
    ∧ updateRec (updateRec rowMapora (wfoDict wfoTaxAlpha)) (colDict colTaxBeta)
        "accepted_name" = some "Beta weevil"
    ∧ (some "Beta weevil" : Option String) ≠ some "Alpha palm" := by
  refine ⟨by decide, by decide, rfl, rfl, by decide⟩

/-- C8 (amended): the rank and id/status field names written by the two
authorities are authority-qualified and mutually disjoint, with the single
exception of the shared key `accepted_name`: attaching a COL placement to a
record leaves every WFO-written field other than `accepted_name` untouched
(and symmetrically), but overwrites `accepted_name`. -/
theorem c8_amended_keys_disjoint_except_accepted :
    (∀ t : WfoTaxonomy, (wfoDict t).map Prod.fst = wfoPlacementKeys)
    ∧ (∀ t : ColTaxonomy, (colDict t).map Prod.fst = colPlacementKeys)
    ∧ (∀ k, k ∈ wfoPlacementKeys → k ∈ colPlacementKeys → k = "accepted_name")
    ∧ (∀ (r : RecordD) (t : ColTaxonomy) (k : String),
        k ∈ wfoPlacementKeys → k ≠ "accepted_name" → updateRec r (colDict t) k = r k)
    ∧ ∀ (r : RecordD) (t : WfoTaxonomy) (k : String),
        k ∈ colPlacementKeys → k ≠ "accepted_name" → updateRec r (wfoDict t) k = r k := by
  refine ⟨fun _ => rfl, fun _ => rfl, by decide, ?_, ?_⟩
  · intro r t k hk hne
    fin_cases hk
    · exact absurd rfl hne
    all_goals rfl
  · intro r t k hk hne
    fin_cases hk
    · exact absurd rfl hne
    all_goals rfl

/-- C8 (witness): the amended statement applied to a concrete record, a
concrete COL placement and the key `"family"`. -/
theorem c8_witness :
    updateRec rowMapora (colDict colTaxBeta) "family" = rowMapora "family" :=
  c8_amended_keys_disjoint_except_accepted.2.2.2.1 rowMapora colTaxBeta "family"
    (by decide) (by decide)

/-! ## Claim C10: the frame of one enrichment step -/

/-- C10: an enrichment step only ever writes the authority's fixed placement
keys; at every other key — `accession`, `organism`, `species_name`,
`assembly_level`, `scaffold_n50`, `contig_n50`, or any previously attached
field outside the authority's key set — the output record agrees with the
input record, in both the WFO and the Wikidata orchestrators. -/
theorem c10_enrichment_frame :
    (∀ (resolve : String → String → Option WfoTaxonomy) (r : RecordD)
        (k : String) (out : RecordD) (f : Option String),
      k ∉ wfoPlacementKeys →
      enrich_arecaceae_step resolve r = .ok (out, f) → out k = r k)
    ∧ ∀ (resolve : String → String → Option WikiTaxonomy) (r : RecordD)
        (k : String) (out : RecordD) (f : Option String),
      k ∉ wikiPlacementKeys →
      enrich_curculionidae_step resolve r = .ok (out, f) → out k = r k := by
  constructor
  · intro resolve r k out f hk hstep
    have hempty : updateRec r wfoEmptyDict k = r k :=
      updateRec_not_mem_keys r wfoEmptyDict k (by rw [wfoEmptyDict_keys]; exact hk)
    rw [enrich_arecaceae_step] at hstep
    by_cases hguard : r.getS "species_name" "" = "" ∨ ¬ strContainsSub (r.getS "species_name" "") " " = true
    · rw [if_pos hguard] at hstep
      obtain ⟨rfl, rfl⟩ : updateRec r wfoEmptyDict = out ∧ some (r.getS "species_name" "") = f := by
        have := Except.ok.inj hstep
        exact ⟨congrArg Prod.fst this, congrArg Prod.snd this⟩
      exact hempty
    · rw [if_neg hguard] at hstep
      cases hsplit : pySplitWs (r.getS "species_name" "") with
      | nil =>
        rw [hsplit] at hstep
        exact Except.noConfusion hstep
      | cons g rest =>
        rw [hsplit] at hstep
        dsimp only at hstep
        generalize (match rest with | s :: _ => s | [] => "") = sp at hstep
        cases hres : resolve g sp with
        | some t =>
          rw [hres] at hstep
          obtain rfl : updateRec r (wfoDict t) = out :=
            congrArg Prod.fst (Except.ok.inj hstep)
          exact updateRec_not_mem_keys r (wfoDict t) k (by rw [wfoDict_keys]; exact hk)
        | none =>
          rw [hres] at hstep
          obtain rfl : updateRec r wfoEmptyDict = out :=
            congrArg Prod.fst (Except.ok.inj hstep)
          exact hempty
  · intro resolve r k out f hk hstep
    have hempty : updateRec r wikiEmptyDict k = r k := by
      refine updateRec_not_mem_keys r wikiEmptyDict k (fun hmem => hk ?_)
      exact wikiEmptyDict_keys_sub k hmem
    rw [enrich_curculionidae_step] at hstep
    by_cases hguard : r.getS "species_name" "" = "" ∨ ¬ strContainsSub (r.getS "species_name" "") " " = true
    · rw [if_pos hguard] at hstep
      obtain rfl : updateRec r wikiEmptyDict = out :=
        congrArg Prod.fst (Except.ok.inj hstep)
      exact hempty
    · rw [if_neg hguard] at hstep
      cases hsplit : pySplitWs (r.getS "species_name" "") with
      | nil =>
        rw [hsplit] at hstep
        exact Except.noConfusion hstep
      | cons g rest =>
        rw [hsplit] at hstep
        dsimp only at hstep
        generalize (match rest with | s :: _ => s | [] => "") = sp at hstep
        cases hres : resolve g sp with
        | some t =>
          rw [hres] at hstep
          obtain rfl : updateRec r (wikiDict t) = out :=
            congrArg Prod.fst (Except.ok.inj hstep)
          exact updateRec_not_mem_keys r (wikiDict t) k (by rw [wikiDict_keys]; exact hk)
        | none =>
          rw [hres] at hstep
          obtain rfl : updateRec r wikiEmptyDict = out :=
            congrArg Prod.fst (Except.ok.inj hstep)
          exact hempty

/-- C10 (witness): both frame statements applied to a concrete record, the
always-failing resolver and the key `"accession"`. -/
theorem c10_witness :
    updateRec rowMapora wfoEmptyDict "accession" = rowMapora "accession"
    ∧ updateRec rowMapora wikiEmptyDict "accession" = rowMapora "accession" := by
  constructor
  · exact c10_enrichment_frame.1 (fun _ _ => none) rowMapora "accession"
      (updateRec rowMapora wfoEmptyDict) (some "Oenocarpus mapora") (by decide) rfl
  · exact c10_enrichment_frame.2 (fun _ _ => none) rowMapora "accession"
      (updateRec rowMapora wikiEmptyDict) (some "Oenocarpus mapora") (by decide) rfl

/-! ## Claim C7: resolver failures degrade to not-found -/

/-- C7: a failing transport outcome (timeout, connection error, malformed
payload) is caught inside `query_wfo_taxonomy` and yields `None`, exactly as
a not-found response does; the orchestrator then attaches the empty
placement, appends the record's name to the failed list, performs no retry,
and moves on to process the remaining records. -/
theorem c7_transport_failure_is_not_found :
    (∀ (genus species : String) (e : TransportError),
      query_wfo_taxonomy genus species (.error e) = none)
    ∧ ∀ (outcomeOf : String → String → TransportError) (r : RecordD)
        (rest : List RecordD) (g : String) (gr : List String),
      r.getS "species_name" "" ≠ "" →
      strContainsSub (r.getS "species_name" "") " " = true →
      pySplitWs (r.getS "species_name" "") = g :: gr →
      enrich_arecaceae_data
          (fun gn sp => query_wfo_taxonomy gn sp (.error (outcomeOf gn sp)))
          (r :: rest)
        = (enrich_arecaceae_data
            (fun gn sp => query_wfo_taxonomy gn sp (.error (outcomeOf gn sp)))
            rest).map
            (fun p => (updateRec r wfoEmptyDict :: p.1,
                       r.getS "species_name" "" :: p.2)) := by
  constructor
  · intro genus species e
    rfl
  · intro outcomeOf r rest g gr hne hsp hsplit
    have hstep : enrich_arecaceae_step
        (fun gn sp => query_wfo_taxonomy gn sp (.error (outcomeOf gn sp))) r
        = .ok (updateRec r wfoEmptyDict, some (r.getS "species_name" "")) := by
      rw [enrich_arecaceae_step, if_neg (by simp [hne, hsp]), hsplit]
      rfl
    rw [enrich_arecaceae_data, hstep]
    cases enrich_arecaceae_data
        (fun gn sp => query_wfo_taxonomy gn sp (.error (outcomeOf gn sp))) rest with
    | error e => rfl
    | ok p => rfl

/-- C7 (witness): the continuation statement applied to a concrete record, a
concrete one-record tail and the always-timing-out transport. -/
theorem c7_witness :
    enrich_arecaceae_data
        (fun gn sp => query_wfo_taxonomy gn sp (.error (TransportError.timeout)))
        [rowMapora, rowEuterpe]
      = (enrich_arecaceae_data
          (fun gn sp => query_wfo_taxonomy gn sp (.error (TransportError.timeout)))
          [rowEuterpe]).map
          (fun p => (updateRec rowMapora wfoEmptyDict :: p.1,
                     rowMapora.getS "species_name" "" :: p.2)) :=
  c7_transport_failure_is_not_found.2 (fun _ _ => TransportError.timeout) rowMapora
    [rowEuterpe] "Oenocarpus" ["mapora"] (by decide) (by decide) (by decide)

/-! ## Claim C4: lineage reduction -/

theorem lineageLoop_family_is_last (lookup : String → EntityInfo) :
    ∀ (d : Nat) (cur : String) (node : LineageNode),
      node ∈ (lineageLoop lookup d cur).dropLast → node.rank ≠ "family" := by
  intro d
  induction d with
  | zero =>
    intro cur node h
    simp [lineageLoop] at h
  | succ d ih =>
    intro cur node h
    rw [lineageLoop] at h
    by_cases hl : pyTruthy (lookup cur).label = true
    · rw [if_pos hl] at h
      dsimp only at h
      by_cases hf : (if pyTruthy (lookup cur).rank_id = true then
          if pyTruthy (lookup ((lookup cur).rank_id.getD "")).label = true then
            (lookup ((lookup cur).rank_id.getD "")).label.getD "" else ""
        else "") = "family"
      · rw [if_pos hf] at h
        simp at h
      · rw [if_neg hf] at h
        by_cases hp : pyTruthy (lookup cur).parent_id = true
        · rw [if_pos hp] at h
          cases hL : lineageLoop lookup d ((lookup cur).parent_id.getD "") with
          | nil =>
            rw [hL] at h
            simp at h
          | cons x xs =>
            rw [hL] at h
            rw [show ∀ (a : LineageNode) l, (a :: x :: l).dropLast = a :: (x :: l).dropLast
                from fun a l => rfl] at h
            rcases List.mem_cons.mp h with rfl | hmem
            · exact hf
            · exact ih _ node (by rw [hL]; exact hmem)
        · rw [if_neg hp] at h
          simp at h
    · rw [if_neg hl] at h
      simp at h

theorem lastNameAtRank_append (rk : String) (L : List LineageNode) (n : LineageNode) :
    lastNameAtRank rk (L ++ [n])
      = if pyLower n.rank = rk then n.name else lastNameAtRank rk L := by
  unfold lastNameAtRank
  rw [List.filter_append]
  by_cases h : pyLower n.rank = rk
  · have : List.filter (fun x => decide (pyLower x.rank = rk)) [n] = [n] := by
      simp [List.filter, h]
    rw [this, if_pos h, List.getLast?_concat]
  · have : List.filter (fun x => decide (pyLower x.rank = rk)) [n] = [] := by
      simp [List.filter, h]
    rw [this, if_neg h, List.append_nil]

theorem extract_taxonomy_eq_last_at_rank (lineage : List LineageNode) :
    extract_taxonomy_from_lineage lineage
      = ⟨lastNameAtRank "family" lineage, lastNameAtRank "subfamily" lineage,
         lastNameAtRank "genus" lineage⟩ := by
  induction lineage using List.reverseRecOn with
  | nil => rfl
  | append_singleton L n ih =>
    have hstep : extract_taxonomy_from_lineage (L ++ [n])
        = (let rank := pyLower n.rank
           let name := n.name
           if rank = "family" then { extract_taxonomy_from_lineage L with family := name }
           else if rank = "subfamily" then
             { extract_taxonomy_from_lineage L with subfamily := name }
           else if rank = "genus" then
             { extract_taxonomy_from_lineage L with genus := name }
           else extract_taxonomy_from_lineage L) := by
      rw [extract_taxonomy_from_lineage, extract_taxonomy_from_lineage, List.foldl_append]
      rfl
    rw [hstep, ih]
    dsimp only
    by_cases h1 : pyLower n.rank = "family"
    · rw [if_pos h1, lastNameAtRank_append, lastNameAtRank_append, lastNameAtRank_append,
        if_pos h1, if_neg (by rw [h1]; decide), if_neg (by rw [h1]; decide)]
    · rw [if_neg h1]
      by_cases h2 : pyLower n.rank = "subfamily"
      · rw [if_pos h2, lastNameAtRank_append, lastNameAtRank_append, lastNameAtRank_append,
          if_pos h2, if_neg (by rw [h2]; decide), if_neg (by rw [h2]; decide)]
      · rw [if_neg h2]
        by_cases h3 : pyLower n.rank = "genus"
        · rw [if_pos h3, lastNameAtRank_append, lastNameAtRank_append, lastNameAtRank_append,
            if_pos h3, if_neg (by rw [h3]; decide), if_neg (by rw [h3]; decide)]
        · rw [if_neg h3, lastNameAtRank_append, lastNameAtRank_append, lastNameAtRank_append,
            if_neg h1, if_neg h2, if_neg h3]

/-- C4 (counterexample): on a lineage holding two genus-ranked nodes the
reduction keeps the LAST one (`"GenB"`), not the first (`"GenA"`) that the
claim requires — and the result dict has no tribe/subtribe entries at all. -/
theorem c4_counterexample :
    (extract_taxonomy_from_lineage lineageTwoGenera).genus = "GenB"
    ∧ firstNameAtRank "genus" lineageTwoGenera = "GenA"
    ∧ ("GenB" : String) ≠ "GenA" := by
  refine ⟨by decide, by decide, by decide⟩

/-- C4 (amended): the traversal stops at the first node whose resolved rank
is exactly `"family"` (that node is recorded and is the last of the
lineage); the reduction extracts, for each of the recognized ranks
family/subfamily/genus only (tribe and subtribe are never extracted), the
name of the LAST lineage node at that lower-cased rank, empty when absent;
and when the lineage is non-empty the resolver returns a placement whose
`accepted_name` is the label of the first (leaf) node (an empty lineage
yields no placement at all rather than one carrying the query name). -/
theorem c4_amended_lineage_reduction :
    (∀ (lookup : String → EntityInfo) (entity_id : String) (max_depth : Nat)
        (node : LineageNode),
      node ∈ (get_taxon_lineage lookup entity_id max_depth).dropLast →
      node.rank ≠ "family")
    ∧ (∀ lineage : List LineageNode,
        extract_taxonomy_from_lineage lineage
          = ⟨lastNameAtRank "family" lineage, lastNameAtRank "subfamily" lineage,
             lastNameAtRank "genus" lineage⟩)
    ∧ ∀ (search : String → Option String) (lookup : String → EntityInfo)
        (genus species eid : String) (first : LineageNode) (rest : List LineageNode),
      search (pyStrip (genus ++ " " ++ species)) = some eid →
      eid ≠ "" →
      get_taxon_lineage lookup eid = first :: rest →
      query_wikidata_taxonomy search lookup genus species
        = some ⟨(extract_taxonomy_from_lineage (first :: rest)).family,
                (extract_taxonomy_from_lineage (first :: rest)).subfamily,
                (extract_taxonomy_from_lineage (first :: rest)).genus,
                first.name, eid⟩ := by
  refine ⟨?_, extract_taxonomy_eq_last_at_rank, ?_⟩
  · intro lookup eid d node h
    exact lineageLoop_family_is_last lookup d eid node h
  · intro search lookup genus species eid first rest hsearch heid hlin
    rw [query_wikidata_taxonomy]
    dsimp only
    rw [hsearch]
    rw [if_pos (by simp [pyTruthy, heid])]
    dsimp only [Option.getD]
    rw [hlin]

/-- C4 (witness): the resolver statement applied to the concrete search and
lookup collaborators, whose walk visits species → genus → family and stops
at the family node. -/
theorem c4_witness :
    query_wikidata_taxonomy demoSearch demoLookup "Anchylorhynchus" "bicarinatus"
      = some ⟨"Curculionidae", "", "Anchylorhynchus",
              "Anchylorhynchus bicarinatus", "Q10"⟩ := by
  have h := c4_amended_lineage_reduction.2.2 demoSearch demoLookup
    "Anchylorhynchus" "bicarinatus" "Q10"
    ⟨"Q10", "Anchylorhynchus bicarinatus", "species"⟩
    [⟨"Q11", "Anchylorhynchus", "genus"⟩, ⟨"Q12", "Curculionidae", "family"⟩]
    (by decide) (by decide) (by decide)
  rw [h]
  decide

/-! ## Claim C9: duplicate species names in aggregation -/

theorem genus_tokens_append (xs ys : List StatRecord) :
    genus_tokens (xs ++ ys) =
      match genus_tokens xs with
      | .error e => .error e
      | .ok a =>
        match genus_tokens ys with
        | .error e => .error e
        | .ok b => .ok (a ++ b) := by
  induction xs with
  | nil =>
    rw [List.nil_append, genus_tokens]
    cases genus_tokens ys <;> rfl
  | cons a t ih =>
    rw [List.cons_append, genus_tokens, genus_tokens]
    by_cases hg : a.species_name ≠ "" ∧ strContainsSub a.species_name " " = true
    · rw [if_pos hg, if_pos hg]
      cases hsplit : pySplitWs a.species_name with
      | nil => rfl
      | cons g gr =>
        rw [ih]
        cases genus_tokens t with
        | error e => rfl
        | ok l => cases genus_tokens ys <;> rfl
    · rw [if_neg hg, if_neg hg]
      exact ih

theorem genus_tokens_ok_names (xs : List StatRecord) (toks : List (StatRecord × String))
    (h : genus_tokens xs = .ok toks) :
    ∀ a ∈ xs, (a.species_name ≠ "" ∧ strContainsSub a.species_name " " = true) →
      pySplitWs a.species_name ≠ [] := by
  induction xs generalizing toks with
  | nil =>
    intro a ha
    exact absurd ha (List.not_mem_nil a)
  | cons b t ih =>
    intro a ha hg
    rw [genus_tokens] at h
    rcases List.mem_cons.mp ha with rfl | hmem
    · rw [if_pos hg] at h
      cases hsplit : pySplitWs a.species_name with
      | nil =>
        rw [hsplit] at h
        exact Except.noConfusion h
      | cons g gr =>
        intro hnil
        exact List.noConfusion hnil
    · by_cases hgb : b.species_name ≠ "" ∧ strContainsSub b.species_name " " = true
      · rw [if_pos hgb] at h
        cases hsplit : pySplitWs b.species_name with
        | nil =>
          rw [hsplit] at h
          exact Except.noConfusion h
        | cons g gr =>
          rw [hsplit] at h
          dsimp only at h
          cases ht : genus_tokens t with
          | error e =>
            rw [ht] at h
            exact Except.noConfusion h
          | ok l => exact ih l ht a hmem hg
      · rw [if_neg hgb] at h
        exact ih toks h a hmem hg

theorem genus_tokens_ok_of_forall (xs : List StatRecord)
    (h : ∀ a ∈ xs, (a.species_name ≠ "" ∧ strContainsSub a.species_name " " = true) →
      pySplitWs a.species_name ≠ []) :
    ∃ t, genus_tokens xs = .ok t := by
  induction xs with
  | nil => exact ⟨[], rfl⟩
  | cons b t ih =>
    obtain ⟨l, hl⟩ := ih (fun a ha => h a (List.mem_cons_of_mem b ha))
    rw [genus_tokens]
    by_cases hgb : b.species_name ≠ "" ∧ strContainsSub b.species_name " " = true
    · rw [if_pos hgb]
      cases hsplit : pySplitWs b.species_name with
      | nil => exact absurd hsplit (h b (List.mem_cons_self b t) hgb)
      | cons g gr =>
        rw [hl]
        exact ⟨(b, g) :: l, rfl⟩
    · rw [if_neg hgb]
      exact ⟨l, hl⟩

theorem species_set_append_of_mem (xs : List StatRecord) (r : StatRecord)
    (h : r.species_name ∈ xs.map StatRecord.species_name) :
    species_set (xs ++ [r]) = species_set xs := by
  unfold species_set
  rw [List.map_append, List.filter_append, List.toFinset_append]
  by_cases hne : r.species_name = ""
  · have : List.filter (fun s => decide (s ≠ "")) (List.map StatRecord.species_name [r])
        = [] := by
      simp [List.filter, hne]
    rw [this]
    simp
  · have : List.filter (fun s => decide (s ≠ "")) (List.map StatRecord.species_name [r])
        = [r.species_name] := by
      simp [List.filter, hne]
    rw [this]
    refine Finset.union_eq_left.mpr ?_
    intro x hx
    rw [Finset.mem_singleton.mp (List.mem_toFinset.mp hx)]
    exact List.mem_toFinset.mpr (List.mem_filter.mpr ⟨h, by simp [hne]⟩)

theorem analyze_arecaceae_ok_fields (as : List StatRecord) (st : ArecStats)
    (h : analyze_arecaceae as = .ok st) :
    st.all_species = (species_set as).card ∧ st.total_assemblies = as.length := by
  unfold analyze_arecaceae at h
  dsimp only at h
  cases h1 : genus_tokens as with
  | error e =>
    rw [h1] at h
    exact Except.noConfusion h
  | ok toks =>
    rw [h1] at h
    dsimp only at h
    cases h2 : genus_tokens ((as.filter is_high_quality).filter
        (fun a => a.tribe = some "Cocoseae")) with
    | error e =>
      rw [h2] at h
      exact Except.noConfusion h
    | ok ctoks =>
      rw [h2] at h
      obtain rfl := Except.ok.inj h
      exact ⟨rfl, rfl⟩

/-- C9: appending to any record list a new record whose `species_name` is
string-identical to that of a record already present leaves the
unique-species count unchanged and increases the total assembly count by
exactly one; in particular, aggregating two records with the same non-empty
`species_name` yields one unique species and two total assemblies. -/
theorem c9_duplicate_species_counts :
    (∀ (rs : List StatRecord) (r r' : StatRecord) (st : ArecStats),
      r' ∈ rs → r.species_name = r'.species_name →
      analyze_arecaceae rs = .ok st →
      ∃ st', analyze_arecaceae (rs ++ [r]) = .ok st'
        ∧ st'.all_species = st.all_species
        ∧ st'.total_assemblies = st.total_assemblies + 1)
    ∧ ∀ (r1 r2 : StatRecord) (st : ArecStats),
      r1.species_name = r2.species_name → r1.species_name ≠ "" →
      analyze_arecaceae [r1, r2] = .ok st →
      st.all_species = 1 ∧ st.total_assemblies = 2 := by
  constructor
  · intro rs r r' st hmem hname h
    obtain ⟨toks, htoks⟩ : ∃ t, genus_tokens rs = .ok t := by
      unfold analyze_arecaceae at h
      cases h1 : genus_tokens rs with
      | error e =>
        rw [h1] at h
        exact Except.noConfusion h
      | ok toks => exact ⟨toks, rfl⟩
    have hgood := genus_tokens_ok_names rs toks htoks
    have hgood' : ∀ a ∈ rs ++ [r],
        (a.species_name ≠ "" ∧ strContainsSub a.species_name " " = true) →
        pySplitWs a.species_name ≠ [] := by
      intro a ha hg
      rcases List.mem_append.mp ha with h' | h'
      · exact hgood a h' hg
      · obtain rfl := List.mem_singleton.mp h'
        rw [hname]
        exact hgood r' hmem (by rw [← hname]; exact hg)
    obtain ⟨t1, ht1⟩ := genus_tokens_ok_of_forall (rs ++ [r]) hgood'
    obtain ⟨t2, ht2⟩ := genus_tokens_ok_of_forall
      (((rs ++ [r]).filter is_high_quality).filter (fun a => a.tribe = some "Cocoseae"))
      (fun a ha hg => hgood' a
        (List.mem_of_mem_filter (List.mem_of_mem_filter ha)) hg)
    have hA : analyze_arecaceae (rs ++ [r]) = .ok
        { total_assemblies := (rs ++ [r]).length,
          hq_assemblies := ((rs ++ [r]).filter is_high_quality).length,
          all_species := (species_set (rs ++ [r])).card,
          hq_species := (species_set ((rs ++ [r]).filter is_high_quality)).card,
          all_genera := (t1.map Prod.snd).toFinset.card,
          hq_genera :=
            ((t1.filter (fun p => is_high_quality p.1)).map Prod.snd).toFinset.card,
          subfamilies := (opt_field_set StatRecord.subfamily
            ((rs ++ [r]).filter is_high_quality)).card,
          tribes := (opt_field_set StatRecord.tribe
            ((rs ++ [r]).filter is_high_quality)).card,
          subtribes := (opt_field_set StatRecord.subtribe
            ((rs ++ [r]).filter is_high_quality)).card,
          cocoseae_subtribes := (opt_field_set StatRecord.subtribe
            (((rs ++ [r]).filter is_high_quality).filter
              (fun a => a.tribe = some "Cocoseae"))).card,
          cocoseae_genera := (t2.map Prod.snd).toFinset.card } := by
      unfold analyze_arecaceae
      dsimp only
      rw [ht1]
      dsimp only
      rw [ht2]
    obtain ⟨hsp, htot⟩ := analyze_arecaceae_ok_fields rs st h
    refine ⟨_, hA, ?_, ?_⟩
    · show (species_set (rs ++ [r])).card = st.all_species
      rw [hsp, species_set_append_of_mem rs r
        (by rw [hname]; exact List.mem_map_of_mem StatRecord.species_name hmem)]
    · show (rs ++ [r]).length = st.total_assemblies + 1
      rw [htot, List.length_append, List.length_singleton]
  · intro r1 r2 st h12 hne h
    obtain ⟨hsp, htot⟩ := analyze_arecaceae_ok_fields [r1, r2] st h
    constructor
    · rw [hsp]
      have : species_set [r1, r2] = {r1.species_name} := by
        unfold species_set
        have h1 : List.map StatRecord.species_name [r1, r2]
            = [r1.species_name, r1.species_name] := by
          simp [← h12]
        rw [h1]
        have h2 : List.filter (fun s => decide (s ≠ ""))
            [r1.species_name, r1.species_name] = [r1.species_name, r1.species_name] := by
          simp [List.filter, hne]
        rw [h2]
        simp [List.toFinset_cons]
      rw [this, Finset.card_singleton]
    · rw [htot]
      rfl

/-- C9 (witness): the general statement applied to the concrete singleton
list `[statRowA]`, its statistics, and the duplicate record `statRowB`. -/
theorem c9_witness :
    ∃ st', analyze_arecaceae ([statRowA] ++ [statRowB]) = .ok st'
      ∧ st'.all_species = (ArecStats.mk 1 1 1 1 1 1 0 0 0 0 0).all_species
      ∧ st'.total_assemblies = (ArecStats.mk 1 1 1 1 1 1 0 0 0 0 0).total_assemblies + 1 :=
  c9_duplicate_species_counts.1 [statRowA] statRowB statRowA
    (ArecStats.mk 1 1 1 1 1 1 0 0 0 0 0)
    (List.mem_singleton.mpr rfl) rfl (by rfl)
